import Mathlib

/-!
Shallow embedding of the pdf_convert content-stream interpreter
(src/render.rs, src/graphics_state.rs, src/text_state.rs, src/plotter.rs).

Machine floats (f32) are modelled by rationals: the operations the
interpreter performs on them (multiplication, addition, comparison) are
exact on the inputs the properties quantify over.  Rust panics
(assert failures, out-of-bounds indexing, unimplemented branches) are
modelled by a distinct `abort` outcome, separate from typed `error`
results (PdfError values returned with Err).
-/

namespace PdfConvert

/-- pathfinder_geometry Transform2F: 2x2 matrix (m11 m12; m21 m22) plus
translation vector (tx, ty).  `Default` is the identity transform. -/
structure Transform2F where
  m11 : ℚ
  m12 : ℚ
  m21 : ℚ
  m22 : ℚ
  tx : ℚ
  ty : ℚ
deriving DecidableEq, Repr

def Transform2F.id : Transform2F := ⟨1, 0, 0, 1, 0, 0⟩

/-- Affine composition, as pathfinder's `Mul for Transform2F`:
matrix = self.matrix * other.matrix, vector = self * other.vector. -/
def Transform2F.mul (A B : Transform2F) : Transform2F :=
  { m11 := A.m11 * B.m11 + A.m12 * B.m21
    m12 := A.m11 * B.m12 + A.m12 * B.m22
    m21 := A.m21 * B.m11 + A.m22 * B.m21
    m22 := A.m21 * B.m12 + A.m22 * B.m22
    tx := A.m11 * B.tx + A.m12 * B.ty + A.tx
    ty := A.m21 * B.tx + A.m22 * B.ty + A.ty }

instance : Mul Transform2F := ⟨Transform2F.mul⟩

structure Vector2F where
  x : ℚ
  y : ℚ
deriving DecidableEq, Repr

def Transform2F.from_translation (v : Vector2F) : Transform2F :=
  ⟨1, 0, 0, 1, v.x, v.y⟩

/-- pdf::content::Point. -/
structure Point where
  x : ℚ
  y : ℚ
deriving DecidableEq, Repr

def Point.cvt (p : Point) : Vector2F := ⟨p.x, p.y⟩

/-- pdf::content::Matrix {a b c d e f}; `cvt` is
`Transform2F::row_major(a, c, e, b, d, f)` from render.rs. -/
structure Matrix where
  a : ℚ
  b : ℚ
  c : ℚ
  d : ℚ
  e : ℚ
  f : ℚ
deriving DecidableEq, Repr

def Matrix.cvt (m : Matrix) : Transform2F :=
  { m11 := m.a, m12 := m.c, tx := m.e, m21 := m.b, m22 := m.d, ty := m.f }

/-- pdf::content::Rect. -/
structure Rect where
  x : ℚ
  y : ℚ
  width : ℚ
  height : ℚ
deriving DecidableEq, Repr

structure RectF where
  ox : ℚ
  oy : ℚ
  w : ℚ
  h : ℚ
deriving DecidableEq, Repr

def Rect.cvt (r : Rect) : RectF := ⟨r.x, r.y, r.width, r.height⟩

inductive Winding where
  | NonZero
  | EvenOdd
deriving DecidableEq, Repr

inductive FillRule where
  | Winding
  | EvenOdd
deriving DecidableEq, Repr

def Winding.cvt : Winding → FillRule
  | .NonZero => .Winding
  | .EvenOdd => .EvenOdd

/-- plotter.rs Fill: solid RGB color or pattern reference
(the `Ref<Pattern>` is modelled as an opaque numeric id). -/
inductive Fill where
  | Solid (r g b : ℚ)
  | Pattern (pat : Nat)
deriving DecidableEq, Repr

def Fill.black : Fill := .Solid 0 0 0

inductive BlendMode where
  | Overlay
  | Darken
deriving DecidableEq, Repr

/-- pdf Primitive operands of a color operator, restricted to the accessors
the resolver uses (`as_number`, `as_integer`, `as_name`). -/
inductive Prim where
  | num (x : ℚ)
  | int (i : Int)
  | name (s : String)
  | null
deriving DecidableEq, Repr

def Prim.as_number : Prim → Except String ℚ
  | .num x => .ok x
  | .int i => .ok (i : ℚ)
  | _ => .error "expected number"

def Prim.as_integer : Prim → Except String Int
  | .int i => .ok i
  | _ => .error "expected integer"

def Prim.as_name : Prim → Except String String
  | .name s => .ok s
  | _ => .error "expected name"

/-- A pdf Function (tint transform): declared input/output arity and an
application that fills an output buffer or fails. -/
structure PdfFunction where
  input_dim : Nat
  output_dim : Nat
  apply : List ℚ → Except String (List ℚ)

/-- pdf::object::ColorSpace, the variants the resolver distinguishes.
Calibrated spaces carry payloads the resolver never reads, so they are
modelled payload-free. -/
inductive ColorSpace where
  | DeviceGray
  | DeviceRGB
  | DeviceCMYK
  | CalGray
  | CalRGB
  | CalCMYK
  | Icc (alternate : Option ColorSpace)
  | Indexed (base : ColorSpace) (hival : Nat) (lut : List Nat)
  | Separation (nm : String) (alt : ColorSpace) (f : PdfFunction)
  | DeviceN (names : List String) (alt : ColorSpace) (tint : PdfFunction)
  | Pattern
  | Named (nm : String)
  | Other (tag : String)

structure Resources where
  color_spaces : List (String × ColorSpace)
  pattern : List (String × Nat)

def lookupTab {α : Type} : List (String × α) → String → Option α
  | [], _ => none
  | (k, v) :: rest, s => if k = s then some v else lookupTab rest s

/-- pdf::content::Color: the operand of a fill/stroke color operator. -/
inductive Color where
  | Gray (g : ℚ)
  | Rgb (r g b : ℚ)
  | Cmyk (c m y k : ℚ)
  | Other (args : List Prim)

/-- Outcome of color resolution: `ok` carries the fill and the (possibly
rebound) active color space; `error` is a typed PdfError returned with
Err; `abort` is a Rust panic (assert failure, out-of-bounds index,
unimplemented branch). -/
inductive CResult where
  | ok (fill : Fill) (cs : ColorSpace)
  | error (msg : String)
  | abort (msg : String)

def CResult.isTypedError : CResult → Bool
  | .error _ => true
  | _ => false

def gray2rgb (g : ℚ) : Fill := .Solid g g g

/-- render.rs cmyk2rgb: clamp f = if f > 1.0 then 1.0 else f. -/
def clamp1 (f : ℚ) : ℚ := if f > 1 then 1 else f

def cmyk2rgb (c m y k : ℚ) (_mode : BlendMode) : Fill :=
  .Solid (1 - clamp1 (c + k)) (1 - clamp1 (m + k)) (1 - clamp1 (y + k))

/-- The operand vector conversion loop of the DeviceN branch:
convert every operand with `as_number`, propagating the first error. -/
def as_numbers : List Prim → Except String (List ℚ)
  | [] => .ok []
  | p :: rest =>
    match p.as_number with
    | .error e => .error e
    | .ok x =>
      match as_numbers rest with
      | .error e => .error e
      | .ok xs => .ok (x :: xs)

/-- A Rust output buffer of length `dim`, zero-initialized and then
overwritten by the prefix the function wrote. -/
def bufferOut (res : List ℚ) (dim : Nat) : List ℚ :=
  (res ++ List.replicate dim 0).take dim

/-- `i as usize` on a 64-bit target (two's-complement wrap). -/
def as_usize (i : Int) : Nat := (i % (2 ^ 64 : Int)).toNat

/-- render.rs convert_color2.  The caller's color-space reference is
rebound to DeviceGray/DeviceRGB/DeviceCMYK by the bare Gray/Rgb/Cmyk
branches; the Color::Other branch only shadows it locally, so the
returned active space is the unchanged `cs` there. -/
def convert_color2 (cs : ColorSpace) (color : Color) (resources : Resources)
    (mode : BlendMode) : CResult :=
  match color with
  | .Gray g => .ok (gray2rgb g) .DeviceGray
  | .Rgb r g b => .ok (.Solid r g b) .DeviceRGB
  | .Cmyk c m y k => .ok (cmyk2rgb c m y k mode) .DeviceCMYK
  | .Other args =>
    let resolved : Except String ColorSpace :=
      match cs with
      | .Icc alt =>
        match alt with
        | some a => .ok a
        | none =>
          match args.length with
          | 3 => .ok .DeviceRGB
          | 4 => .ok .DeviceCMYK
          | _ => .error "ICC profile without alternate color space"
      | .Named nm =>
        match lookupTab resources.color_spaces nm with
        | some c => .ok c
        | none => .error ("named color space " ++ nm ++ " not found")
      | c => .ok c
    match resolved with
    | .error e => .error e
    | .ok c =>
      match c with
      | .Icc _ => .error "nested ICC color space"
      | .DeviceGray | .CalGray =>
        if args.length ≠ 1 then .error "expected 1 color arguments" else
        match (args.getD 0 .null).as_number with
        | .error e => .error e
        | .ok g => .ok (gray2rgb g) cs
      | .DeviceRGB | .CalRGB =>
        if args.length ≠ 3 then .error "expected 3 color arguments" else
        match (args.getD 0 .null).as_number with
        | .error e => .error e
        | .ok r =>
          match (args.getD 1 .null).as_number with
          | .error e => .error e
          | .ok g =>
            match (args.getD 2 .null).as_number with
            | .error e => .error e
            | .ok b => .ok (.Solid r g b) cs
      | .DeviceCMYK | .CalCMYK =>
        if args.length ≠ 4 then .error "expected 4 color arguments" else
        match (args.getD 0 .null).as_number with
        | .error e => .error e
        | .ok cc =>
          match (args.getD 1 .null).as_number with
          | .error e => .error e
          | .ok m =>
            match (args.getD 2 .null).as_number with
            | .error e => .error e
            | .ok y =>
              match (args.getD 3 .null).as_number with
              | .error e => .error e
              | .ok k => .ok (cmyk2rgb cc m y k mode) cs
      | .DeviceN _ alt tint =>
        if args.length ≠ tint.input_dim then
          .abort "assertion failed: args.len() == tint.input_dim()"
        else
          match as_numbers args with
          | .error e => .error e
          | .ok input =>
            match tint.apply input with
            | .error e => .error e
            | .ok res =>
              let out := bufferOut res tint.output_dim
              let altR : Option ColorSpace :=
                match alt with
                | .Icc a => a
                | a => some a
              match altR with
              | some .DeviceGray =>
                if tint.output_dim < 1 then .abort "index out of bounds" else
                .ok (.Solid (out.getD 0 0) (out.getD 0 0) (out.getD 0 0)) cs
              | some .DeviceRGB =>
                if tint.output_dim < 3 then .abort "index out of bounds" else
                .ok (.Solid (out.getD 0 0) (out.getD 1 0) (out.getD 2 0)) cs
              | some .DeviceCMYK =>
                if tint.output_dim < 4 then .abort "index out of bounds" else
                .ok (cmyk2rgb (out.getD 0 0) (out.getD 1 0) (out.getD 2 0)
                      (out.getD 3 0) mode) cs
              | _ => .abort "DeviceN colorspace unimplemented"
      | .Separation _ alt f =>
        if args.length ≠ 1 then .error "expected 1 color arguments" else
        match (args.getD 0 .null).as_number with
        | .error e => .error e
        | .ok x =>
          let altR : Except String ColorSpace :=
            match alt with
            | .Icc a =>
              match a with
              | some b => .ok b
              | none => .error "no alternate color space in ICC profile"
            | a => .ok a
          match altR with
          | .error e => .error e
          | .ok c2 =>
            match c2 with
            | .DeviceCMYK =>
              match f.apply [x] with
              | .error e => .error e
              | .ok res =>
                let out := bufferOut res 4
                .ok (cmyk2rgb (out.getD 0 0) (out.getD 1 0) (out.getD 2 0)
                      (out.getD 3 0) mode) cs
            | .DeviceRGB =>
              match f.apply [x] with
              | .error e => .error e
              | .ok res =>
                let out := bufferOut res 3
                .ok (.Solid (out.getD 0 0) (out.getD 1 0) (out.getD 2 0)) cs
            | .DeviceGray =>
              match f.apply [x] with
              | .error e => .error e
              | .ok res =>
                let out := bufferOut res 1
                .ok (.Solid (out.getD 0 0) (out.getD 0 0) (out.getD 0 0)) cs
            | _ => .abort "Separation alternate unimplemented"
      | .Indexed base _ lut =>
        if args.length ≠ 1 then .error "expected 1 color arguments" else
        match (args.getD 0 .null).as_integer with
        | .error e => .error e
        | .ok i =>
          match base with
          | .DeviceRGB =>
            let off := (3 * as_usize i) % 2 ^ 64
            if lut.length < off + 3 then .abort "index out of bounds" else
            .ok (.Solid (lut.getD off 0 : ℚ) (lut.getD (off + 1) 0 : ℚ)
                  (lut.getD (off + 2) 0 : ℚ)) cs
          | .DeviceCMYK =>
            let off := (4 * as_usize i) % 2 ^ 64
            if lut.length < off + 4 then .abort "index out of bounds" else
            .ok (cmyk2rgb (lut.getD off 0 : ℚ) (lut.getD (off + 1) 0 : ℚ)
                  (lut.getD (off + 2) 0 : ℚ) (lut.getD (off + 3) 0 : ℚ) mode) cs
          | _ => .abort "Indexed colorspace base unimplemented"
      | .Pattern =>
        match args with
        | [] => .abort "index out of bounds"
        | a :: _ =>
          match a.as_name with
          | .error e => .error e
          | .ok nm =>
            match lookupTab resources.pattern nm with
            | some pat => .ok (.Pattern pat) cs
            | none => .abort ("Pattern " ++ nm ++ " not found")
      | .Other _ => .abort "Other color space unimplemented"
      | .Named _ => .abort "nested Named unimplemented"

/-- The resolve.options() the renderer consults. -/
structure Options where
  allow_error_in_option : Bool

/-- render.rs convert_color: in lenient mode a typed resolution error is
replaced by opaque black with a printed diagnostic (second component);
panics are not caught. -/
def convert_color (opts : Options) (cs : ColorSpace) (color : Color)
    (resources : Resources) (mode : BlendMode) : CResult × List String :=
  match convert_color2 cs color resources mode with
  | .ok f c2 => (.ok f c2, [])
  | .error e =>
    if opts.allow_error_in_option then
      (.ok (.Solid 0 0 0) cs, ["failed to convert color: " ++ e])
    else
      (.error e, [])
  | .abort m => (.abort m, [])

/-- pathfinder StrokeStyle; only line_width is actively written. -/
structure StrokeStyle where
  line_width : ℚ
  line_cap : Nat
  line_join : Nat
deriving DecidableEq, Repr

def StrokeStyle.default : StrokeStyle := ⟨1, 0, 0⟩

/-- graphics_state.rs GraphicsState (paint ids and clip ids are opaque
numbers; color-space references are plain copies). -/
structure GraphicsState where
  transform : Transform2F
  stroke_style : StrokeStyle
  fill_color : Fill
  fill_color_alpha : ℚ
  fill_paint : Option Nat
  stroke_color : Fill
  stroke_color_alpha : ℚ
  stroke_paint : Option Nat
  clip_path_id : Option Nat
  fill_color_space : ColorSpace
  stroke_color_space : ColorSpace
  dash_pattern : Option (List ℚ × ℚ)
  stroke_alpha : ℚ
  fill_alpha : ℚ
  overprint_fill : Bool
  overprint_stroke : Bool
  overprint_mode : Int

/-- The Clone impl copies every field (`.. *self`). -/
def GraphicsState.clone (s : GraphicsState) : GraphicsState := s

def GraphicsState.set_fill_color (s : GraphicsState) (fill : Fill) : GraphicsState :=
  if fill ≠ s.fill_color then
    { s with fill_color := fill, fill_paint := none }
  else s

def GraphicsState.set_fill_alpha (s : GraphicsState) (alpha : ℚ) : GraphicsState :=
  let a := s.fill_alpha * alpha
  if a ≠ s.fill_color_alpha then
    { s with fill_color_alpha := a, fill_paint := none }
  else s

def GraphicsState.set_stroke_color (s : GraphicsState) (fill : Fill) : GraphicsState :=
  if fill ≠ s.stroke_color then
    { s with stroke_color := fill, stroke_paint := none }
  else s

/-- As written in graphics_state.rs: the guard compares against
stroke_color_alpha but the assignment writes the stroke_alpha field. -/
def GraphicsState.set_stroke_alpha (s : GraphicsState) (alpha : ℚ) : GraphicsState :=
  let a := s.stroke_alpha * alpha
  if a ≠ s.stroke_color_alpha then
    { s with stroke_alpha := a, stroke_paint := none }
  else s

structure Stroke where
  dash_pattern : Option (List ℚ × ℚ)
  style : StrokeStyle
deriving DecidableEq, Repr

def GraphicsState.stroke (s : GraphicsState) : Stroke :=
  ⟨s.dash_pattern, s.stroke_style⟩

/-- pdf::content::TextMode. -/
inductive TextMode where
  | Fill
  | Stroke
  | FillThenStroke
  | Invisible
  | FillAndClip
  | StrokeAndClip
  | FillStrokeAndClip
  | Clip
deriving DecidableEq, Repr

/-- text_state.rs TextState (the stubbed font entry is omitted; no code
path reads it). -/
structure TextState where
  text_matrix : Transform2F
  line_matrix : Transform2F
  char_space : ℚ
  word_space : ℚ
  horiz_scale : ℚ
  leading : ℚ
  font_size : ℚ
  mode : TextMode
  rise : ℚ
  knockout : ℚ
deriving DecidableEq, Repr

def TextState.new : TextState :=
  { text_matrix := Transform2F.id
    line_matrix := Transform2F.id
    char_space := 0
    word_space := 0
    horiz_scale := 1
    leading := 0
    font_size := 0
    mode := .Fill
    rise := 0
    knockout := 0 }

def TextState.set_matrix (t : TextState) (m : Transform2F) : TextState :=
  { t with text_matrix := m, line_matrix := m }

def TextState.reset_matrix (t : TextState) : TextState :=
  t.set_matrix Transform2F.id

def TextState.translate (t : TextState) (v : Vector2F) : TextState :=
  t.set_matrix (t.line_matrix * Transform2F.from_translation v)

def TextState.next_line (t : TextState) : TextState :=
  t.translate ⟨0, -t.leading⟩

/-- A pathfinder Contour segment. -/
inductive Segment where
  | endpoint (p : Vector2F)
  | cubic (c1 c2 p : Vector2F)
deriving DecidableEq, Repr

structure Contour where
  segs : List Segment
  closed : Bool
deriving DecidableEq, Repr

def Contour.new : Contour := ⟨[], false⟩

def Contour.is_empty (c : Contour) : Bool := c.segs.isEmpty

def Contour.push_endpoint (c : Contour) (p : Vector2F) : Contour :=
  { c with segs := c.segs ++ [.endpoint p] }

def Contour.push_cubic (c : Contour) (c1 c2 p : Vector2F) : Contour :=
  { c with segs := c.segs ++ [.cubic c1 c2 p] }

def Contour.close (c : Contour) : Contour := { c with closed := true }

def Contour.from_rect (r : RectF) : Contour :=
  ⟨[.endpoint ⟨r.ox, r.oy⟩, .endpoint ⟨r.ox + r.w, r.oy⟩,
    .endpoint ⟨r.ox + r.w, r.oy + r.h⟩, .endpoint ⟨r.ox, r.oy + r.h⟩], true⟩

structure FillMode where
  color : Fill
  alpha : ℚ
  mode : BlendMode
deriving DecidableEq, Repr

inductive DrawMode where
  | Fill (fill : FillMode)
  | Stroke (stroke : FillMode) (stroke_mode : Stroke)
  | FillStroke (fill stroke : FillMode) (stroke_mode : Stroke)
deriving DecidableEq, Repr

/-- One call to the external Plotter's draw method. -/
structure DrawCall where
  outline : List Contour
  mode : DrawMode
  fill_rule : FillRule
  transform : Transform2F
  clip : Option Nat
deriving DecidableEq, Repr

/-- pdf::content::Op, with the payloads the interpreter reads. -/
inductive Op where
  | BeginMarkedContent
  | EndMarkedContent
  | MarkedContentPoint
  | Close
  | MoveTo (p : Point)
  | LineTo (p : Point)
  | CurveTo (c1 c2 p : Point)
  | Rect (rect : Rect)
  | EndPath
  | Stroke
  | FillAndStroke (winding : Winding)
  | Fill (winding : Winding)
  | Shade (nm : String)
  | Clip (winding : Winding)
  | Save
  | Restore
  | Transform (matrix : Matrix)
  | LineWidth (width : ℚ)
  | Dash
  | LineJoin
  | LineCap
  | MiterLimit
  | Flatness
  | GraphicsState (nm : String)
  | StrokeColor (color : Color)
  | FillColor (color : Color)
  | FillColorSpace (nm : String)
  | StrokeColorSpace (nm : String)
  | RenderingIntent
  | BeginText
  | EndText
  | CharSpacing (char_space : ℚ)
  | WordSpacing (word_space : ℚ)
  | TextScaling (horiz_scale : ℚ)
  | Leading (leading : ℚ)
  | TextFont (nm : String) (size : ℚ)
  | TextRenderMode (mode : TextMode)
  | TextRise (rise : ℚ)
  | MoveTextPosition (translation : Point)
  | SetTextMatrix (matrix : Matrix)
  | TextNewline
  | TextDraw
  | TextDrawAdjusted
  | XObject (nm : String)
  | InlineImage

/-- render.rs RenderState; the external plotter is modelled by the list
of draw calls it has received. -/
structure RState where
  graphics_state : GraphicsState
  text_state : TextState
  current_outline : List Contour
  current_contour : Contour
  stack : List (GraphicsState × TextState)
  draws : List DrawCall

structure Ctx where
  resources : Resources
  options : Options

def RState.new (transform : Transform2F) : RState :=
  { graphics_state :=
      { transform := transform
        stroke_style := StrokeStyle.default
        fill_color := Fill.black
        fill_color_alpha := 1
        fill_paint := none
        stroke_color := Fill.black
        stroke_color_alpha := 1
        stroke_paint := none
        clip_path_id := none
        fill_color_space := .DeviceRGB
        stroke_color_space := .DeviceRGB
        dash_pattern := none
        stroke_alpha := 1
        fill_alpha := 1
        overprint_fill := false
        overprint_stroke := false
        overprint_mode := 0 }
    text_state := TextState.new
    current_outline := []
    current_contour := Contour.new
    stack := []
    draws := [] }

/-- RenderState::flush. -/
def RState.flush (s : RState) : RState :=
  if ¬ s.current_contour.is_empty then
    { s with current_outline := s.current_outline ++ [s.current_contour]
             current_contour := Contour.new }
  else s

/-- RenderState::color_space. -/
def color_space (ctx : Ctx) (nm : String) : Except String ColorSpace :=
  if nm = "DeviceGray" then .ok .DeviceGray
  else if nm = "DeviceRGB" then .ok .DeviceRGB
  else if nm = "DeviceCMYK" then .ok .DeviceCMYK
  else if nm = "Pattern" then .ok .Pattern
  else
    match lookupTab ctx.resources.color_spaces nm with
    | some c => .ok c
    | none => .error ("color space " ++ nm ++ " not present")

def blend_mode_stroke (g : GraphicsState) : BlendMode :=
  if g.overprint_stroke then .Darken else .Overlay

def blend_mode_fill (g : GraphicsState) : BlendMode :=
  if g.overprint_fill then .Darken else .Overlay

/-- RenderState::draw: flush, hand the outline to the plotter, clear it. -/
def RState.draw (s : RState) (mode : DrawMode) (fill_rule : FillRule) : RState :=
  let s1 := s.flush
  { s1 with
      draws := s1.draws ++
        [⟨s1.current_outline, mode, fill_rule, s1.graphics_state.transform,
          s1.graphics_state.clip_path_id⟩]
      current_outline := [] }

/-- Result of processing operators: a typed error carries the state at
failure (the external plotter and the draw calls it already received
survive the failure); `abort` is a Rust panic. -/
inductive StepRes where
  | ok (s : RState)
  | error (msg : String) (s : RState)
  | abort (msg : String) (s : RState)

def StepRes.getState : StepRes → RState
  | .ok s => s
  | .error _ s => s
  | .abort _ s => s

/-- One iteration of the operator loop in RenderState::render. -/
def step (ctx : Ctx) (s : RState) (op : Op) : StepRes :=
  match op with
  | .BeginMarkedContent => .ok s
  | .EndMarkedContent => .ok s
  | .MarkedContentPoint => .ok s
  | .Close => .ok { s with current_contour := s.current_contour.close }
  | .MoveTo p =>
    let s1 := s.flush
    .ok { s1 with current_contour := s1.current_contour.push_endpoint p.cvt }
  | .LineTo p =>
    .ok { s with current_contour := s.current_contour.push_endpoint p.cvt }
  | .CurveTo c1 c2 p =>
    .ok { s with current_contour := s.current_contour.push_cubic c1.cvt c2.cvt p.cvt }
  | .Rect r =>
    let s1 := s.flush
    .ok { s1 with current_outline := s1.current_outline ++ [Contour.from_rect r.cvt] }
  | .EndPath => .ok { s with current_contour := Contour.new, current_outline := [] }
  | .Stroke =>
    .ok (s.draw
      (.Stroke
        ⟨s.graphics_state.stroke_color, s.graphics_state.stroke_color_alpha,
          blend_mode_stroke s.graphics_state⟩
        s.graphics_state.stroke)
      .Winding)
  | .FillAndStroke w =>
    .ok (s.draw
      (.FillStroke
        ⟨s.graphics_state.fill_color, s.graphics_state.fill_color_alpha,
          blend_mode_fill s.graphics_state⟩
        ⟨s.graphics_state.stroke_color, s.graphics_state.stroke_color_alpha,
          blend_mode_stroke s.graphics_state⟩
        s.graphics_state.stroke)
      w.cvt)
  | .Fill w =>
    .ok (s.draw
      (.Fill
        ⟨s.graphics_state.fill_color, s.graphics_state.fill_color_alpha,
          blend_mode_fill s.graphics_state⟩)
      w.cvt)
  | .Shade _ => .ok s
  | .Clip _ => .ok s
  | .Save =>
    .ok { s with stack := (s.graphics_state.clone, s.text_state) :: s.stack }
  | .Restore =>
    match s.stack with
    | [] => .error "graphcs stack is empty" s
    | (g, t) :: rest =>
      .ok { s with graphics_state := g, text_state := t, stack := rest }
  | .Transform m =>
    .ok { s with graphics_state :=
      { s.graphics_state with transform := s.graphics_state.transform * m.cvt } }
  | .LineWidth w =>
    .ok { s with graphics_state :=
      { s.graphics_state with stroke_style :=
        { s.graphics_state.stroke_style with line_width := w } } }
  | .Dash => .ok s
  | .LineJoin => .ok s
  | .LineCap => .ok s
  | .MiterLimit => .ok s
  | .Flatness => .ok s
  | .GraphicsState _ => .ok s
  | .StrokeColor color =>
    let mode := blend_mode_stroke s.graphics_state
    match convert_color ctx.options s.graphics_state.stroke_color_space color
        ctx.resources mode with
    | (.ok f c2, _) =>
      .ok { s with graphics_state :=
        ({ s.graphics_state with stroke_color_space := c2 }).set_stroke_color f }
    | (.error e, _) => .error e s
    | (.abort m, _) => .abort m s
  | .FillColor color =>
    let mode := blend_mode_fill s.graphics_state
    match convert_color ctx.options s.graphics_state.fill_color_space color
        ctx.resources mode with
    | (.ok f c2, _) =>
      .ok { s with graphics_state :=
        ({ s.graphics_state with fill_color_space := c2 }).set_fill_color f }
    | (.error e, _) => .error e s
    | (.abort m, _) => .abort m s
  | .FillColorSpace nm =>
    match color_space ctx nm with
    | .error e => .error e s
    | .ok c =>
      .ok { s with graphics_state :=
        ({ s.graphics_state with fill_color_space := c }).set_fill_color Fill.black }
  | .StrokeColorSpace nm =>
    match color_space ctx nm with
    | .error e => .error e s
    | .ok c =>
      .ok { s with graphics_state :=
        ({ s.graphics_state with stroke_color_space := c }).set_stroke_color Fill.black }
  | .RenderingIntent => .ok s
  | .BeginText => .ok { s with text_state := s.text_state.reset_matrix }
  | .EndText => .ok s
  | .CharSpacing x => .ok { s with text_state := { s.text_state with char_space := x } }
  | .WordSpacing x => .ok { s with text_state := { s.text_state with word_space := x } }
  | .TextScaling h =>
    .ok { s with text_state := { s.text_state with horiz_scale := (1 / 100) * h } }
  | .Leading l => .ok { s with text_state := { s.text_state with leading := l } }
  | .TextFont _ _ => .ok s
  | .TextRenderMode m => .ok { s with text_state := { s.text_state with mode := m } }
  | .TextRise r => .ok { s with text_state := { s.text_state with rise := r } }
  | .MoveTextPosition v => .ok { s with text_state := s.text_state.translate v.cvt }
  | .SetTextMatrix m => .ok { s with text_state := s.text_state.set_matrix m.cvt }
  | .TextNewline => .ok { s with text_state := s.text_state.next_line }
  | .TextDraw => .ok s
  | .TextDrawAdjusted => .ok s
  | .XObject _ => .ok s
  | .InlineImage => .ok s

/-- The operator loop of RenderState::render: operators are processed in
order; the first error or panic stops rendering. -/
def render (ctx : Ctx) (s : RState) : List Op → StepRes
  | [] => .ok s
  | op :: rest =>
    match step ctx s op with
    | .ok s2 => render ctx s2 rest
    | .error e s2 => .error e s2
    | .abort e s2 => .abort e s2

def res0 : Resources := ⟨[], []⟩

def ctx0 : Ctx := ⟨res0, ⟨true⟩⟩

def initState : RState := RState.new Transform2F.id

/-- A state whose cached paint handles are resolved, to observe retention. -/
def gsW : GraphicsState :=
  { initState.graphics_state with fill_paint := some 5, stroke_paint := some 6 }

def sPush : RState :=
  { initState with stack := [(initState.graphics_state, initState.text_state)] }

/-- A state with a pending (non-empty) current subpath. -/
def sPend : RState :=
  { initState with current_contour := ⟨[Segment.endpoint ⟨1, 2⟩], false⟩ }

theorem as_usize_natCast (n : Nat) (h : n < 2 ^ 64) : as_usize (n : Int) = n := by
  unfold as_usize
  omega

/-- C1: for every interpreter state, executing a Save operator and then a
Restore operator with no intervening mutation leaves the GraphicsState and
TextState (indeed the whole interpreter state) equal to their values
before the Save: Save pushes a clone of the pair, Restore pops it back. -/
theorem save_restore_roundtrip (ctx : Ctx) (s : RState) :
    render ctx s [Op.Save, Op.Restore] = StepRes.ok s := rfl

/-- C2: each color/alpha mutator invalidates the corresponding cached
paint handle exactly when the new (for alphas: effective composed) value
differs from the stored value, and keeps it untouched on a no-op write. -/
theorem mutator_cache_invalidation (g : GraphicsState) (f : Fill) (a : ℚ) :
    (f = g.fill_color → (g.set_fill_color f).fill_paint = g.fill_paint) ∧
    (f ≠ g.fill_color → (g.set_fill_color f).fill_paint = none) ∧
    (g.fill_alpha * a = g.fill_color_alpha →
      (g.set_fill_alpha a).fill_paint = g.fill_paint) ∧
    (g.fill_alpha * a ≠ g.fill_color_alpha →
      (g.set_fill_alpha a).fill_paint = none) ∧
    (f = g.stroke_color → (g.set_stroke_color f).stroke_paint = g.stroke_paint) ∧
    (f ≠ g.stroke_color → (g.set_stroke_color f).stroke_paint = none) ∧
    (g.stroke_alpha * a = g.stroke_color_alpha →
      (g.set_stroke_alpha a).stroke_paint = g.stroke_paint) ∧
    (g.stroke_alpha * a ≠ g.stroke_color_alpha →
      (g.set_stroke_alpha a).stroke_paint = none) := by
  refine ⟨?_, ?_, ?_, ?_, ?_, ?_, ?_, ?_⟩ <;> intro h <;>
    simp [GraphicsState.set_fill_color, GraphicsState.set_fill_alpha,
      GraphicsState.set_stroke_color, GraphicsState.set_stroke_alpha, h]

theorem mutator_cache_invalidation_witness :
    (gsW.set_fill_color Fill.black).fill_paint = gsW.fill_paint ∧
    (gsW.set_fill_color (Fill.Solid 1 0 0)).fill_paint = none ∧
    (gsW.set_fill_alpha 1).fill_paint = gsW.fill_paint ∧
    (gsW.set_fill_alpha (1 / 2)).fill_paint = none ∧
    (gsW.set_stroke_color Fill.black).stroke_paint = gsW.stroke_paint ∧
    (gsW.set_stroke_color (Fill.Solid 1 0 0)).stroke_paint = none ∧
    (gsW.set_stroke_alpha 1).stroke_paint = gsW.stroke_paint ∧
    (gsW.set_stroke_alpha (1 / 2)).stroke_paint = none :=
  ⟨(mutator_cache_invalidation gsW Fill.black 1).1 (by decide),
   (mutator_cache_invalidation gsW (Fill.Solid 1 0 0) 1).2.1 (by decide),
   (mutator_cache_invalidation gsW Fill.black 1).2.2.1
     (by norm_num [gsW, initState, RState.new]),
   (mutator_cache_invalidation gsW Fill.black (1 / 2)).2.2.2.1
     (by norm_num [gsW, initState, RState.new]),
   (mutator_cache_invalidation gsW Fill.black 1).2.2.2.2.1 (by decide),
   (mutator_cache_invalidation gsW (Fill.Solid 1 0 0) 1).2.2.2.2.2.1 (by decide),
   (mutator_cache_invalidation gsW Fill.black 1).2.2.2.2.2.2.1
     (by norm_num [gsW, initState, RState.new]),
   (mutator_cache_invalidation gsW Fill.black (1 / 2)).2.2.2.2.2.2.2
     (by norm_num [gsW, initState, RState.new])⟩

/-- C3: in lenient mode (allow_error_in_option), every input on which
strict resolution fails with a typed error resolves to opaque black
Solid(0,0,0), with a non-fatal logged diagnostic, instead of propagating
the error. -/
theorem lenient_failure_black (opts : Options) (cs : ColorSpace) (c : Color)
    (res : Resources) (mode : BlendMode) (e : String)
    (hopts : opts.allow_error_in_option = true)
    (hfail : convert_color2 cs c res mode = .error e) :
    convert_color opts cs c res mode =
      (.ok (Fill.Solid 0 0 0) cs, ["failed to convert color: " ++ e]) := by
  unfold convert_color
  rw [hfail]
  simp [hopts]

theorem lenient_failure_black_witness :
    convert_color2 .DeviceRGB (Color.Other []) res0 .Overlay =
      .error "expected 3 color arguments" ∧
    convert_color ⟨true⟩ .DeviceRGB (Color.Other []) res0 .Overlay =
      (.ok (Fill.Solid 0 0 0) .DeviceRGB,
        ["failed to convert color: " ++ "expected 3 color arguments"]) :=
  ⟨rfl, lenient_failure_black ⟨true⟩ .DeviceRGB (Color.Other []) res0 .Overlay
    "expected 3 color arguments" rfl rfl⟩

/-- C4 counterexample: a pattern name missing from the resource table
makes resolution abort abruptly (Rust panic via unimplemented), not
return a typed error as the claim states. -/
theorem pattern_missing_aborts :
    (convert_color2 .Pattern (Color.Other [Prim.name "P0"]) ⟨[], []⟩
      .Overlay).isTypedError = false ∧
    convert_color2 .Pattern (Color.Other [Prim.name "P0"]) ⟨[], []⟩ .Overlay =
      .abort ("Pattern " ++ "P0" ++ " not found") := ⟨rfl, rfl⟩

/-- C4 amended: wrong operand arity for DeviceRGB and unresolvable Named
spaces fail with typed errors, but a DeviceN operand count different from
the tint arity, an out-of-bounds Indexed index, and a missing pattern
name abort abruptly (Rust panic) rather than returning a typed error. -/
theorem malformed_color_outcomes (res : Resources) (mode : BlendMode) :
    (∀ args : List Prim, args.length ≠ 3 →
      convert_color2 .DeviceRGB (.Other args) res mode =
        .error "expected 3 color arguments") ∧
    (∀ (nm : String) (args : List Prim),
      lookupTab res.color_spaces nm = none →
      convert_color2 (.Named nm) (.Other args) res mode =
        .error ("named color space " ++ nm ++ " not found")) ∧
    (∀ (nms : List String) (alt : ColorSpace) (tint : PdfFunction)
      (args : List Prim), args.length ≠ tint.input_dim →
      convert_color2 (.DeviceN nms alt tint) (.Other args) res mode =
        .abort "assertion failed: args.len() == tint.input_dim()") ∧
    (∀ (hival n : Nat) (lut : List Nat),
      3 * n + 3 ≤ 2 ^ 64 → lut.length < 3 * n + 3 →
      convert_color2 (.Indexed .DeviceRGB hival lut)
        (.Other [Prim.int (n : Int)]) res mode = .abort "index out of bounds") ∧
    (∀ pnm : String, lookupTab res.pattern pnm = none →
      convert_color2 .Pattern (.Other [Prim.name pnm]) res mode =
        .abort ("Pattern " ++ pnm ++ " not found")) := by
  refine ⟨?_, ?_, ?_, ?_, ?_⟩
  · intro args h
    unfold convert_color2
    simp [h]
  · intro nm args h
    unfold convert_color2
    simp [h]
  · intro nms alt tint args h
    unfold convert_color2
    simp [h]
  · intro hival n lut hrep hbound
    unfold convert_color2
    simp [Prim.as_integer, as_usize_natCast n (by omega)]
    omega
  · intro pnm h
    unfold convert_color2
    simp [Prim.as_name, h]

theorem malformed_color_outcomes_witness :
    convert_color2 .DeviceRGB (Color.Other []) ⟨[], []⟩ .Overlay =
      .error "expected 3 color arguments" ∧
    convert_color2 (.Named "CS0") (Color.Other []) ⟨[], []⟩ .Overlay =
      .error ("named color space " ++ "CS0" ++ " not found") ∧
    convert_color2 (.DeviceN [] .DeviceGray ⟨2, 1, fun x => .ok x⟩)
      (Color.Other []) ⟨[], []⟩ .Overlay =
      .abort "assertion failed: args.len() == tint.input_dim()" ∧
    convert_color2 (.Indexed .DeviceRGB 0 []) (Color.Other [Prim.int ((0 : Nat) : Int)])
      ⟨[], []⟩ .Overlay = .abort "index out of bounds" ∧
    convert_color2 .Pattern (Color.Other [Prim.name "P1"]) ⟨[], []⟩ .Overlay =
      .abort ("Pattern " ++ "P1" ++ " not found") :=
  ⟨(malformed_color_outcomes ⟨[], []⟩ .Overlay).1 [] (by decide),
   (malformed_color_outcomes ⟨[], []⟩ .Overlay).2.1 "CS0" [] rfl,
   (malformed_color_outcomes ⟨[], []⟩ .Overlay).2.2.1 []
     .DeviceGray ⟨2, 1, fun x => .ok x⟩ [] (by decide),
   (malformed_color_outcomes ⟨[], []⟩ .Overlay).2.2.2.1 0 0 []
     (by norm_num) (by norm_num),
   (malformed_color_outcomes ⟨[], []⟩ .Overlay).2.2.2.2 "P1" rfl⟩

/-- C5: a Restore fails with the distinct stack-empty error exactly when
the state stack is empty; the error is fatal (rendering of the remaining
operators stops) and the draw calls already emitted survive in the carried
state; with a non-empty stack Restore pops successfully. -/
theorem restore_empty_stack (ctx : Ctx) (s : RState) (rest : List Op) :
    (s.stack = [] →
      render ctx s (Op.Restore :: rest) = .error "graphcs stack is empty" s) ∧
    (∀ g t st, s.stack = (g, t) :: st →
      step ctx s Op.Restore =
        .ok { s with graphics_state := g, text_state := t, stack := st }) := by
  constructor
  · intro h
    simp [render, step, h]
  · intro g t st h
    simp [step, h]

theorem restore_empty_stack_witness :
    render ctx0 initState [Op.Restore] =
      .error "graphcs stack is empty" initState ∧
    step ctx0 sPush Op.Restore =
      .ok { sPush with
              graphics_state := initState.graphics_state
              text_state := initState.text_state
              stack := [] } :=
  ⟨(restore_empty_stack ctx0 initState []).1 rfl,
   (restore_empty_stack ctx0 sPush []).2 initState.graphics_state
     initState.text_state [] rfl⟩

/-- C6: evaluating the code at the failing input: from the initial state
(base stroke alpha 1, effective stroke alpha 1), set_stroke_alpha (1/2)
writes the product into the persistent base field stroke_alpha and leaves
the effective stroke_color_alpha unchanged — the opposite of the claimed
behaviour — while set_fill_alpha updates fill_color_alpha and leaves the
base fill_alpha unchanged, as claimed. -/
theorem stroke_alpha_setter_divergence :
    (initState.graphics_state.set_stroke_alpha (1 / 2)).stroke_alpha = 1 / 2 ∧
    (initState.graphics_state.set_stroke_alpha (1 / 2)).stroke_color_alpha = 1 ∧
    (initState.graphics_state.set_fill_alpha (1 / 2)).fill_color_alpha = 1 / 2 ∧
    (initState.graphics_state.set_fill_alpha (1 / 2)).fill_alpha = 1 := by
  refine ⟨?_, ?_, ?_, ?_⟩ <;>
    norm_num [initState, RState.new, GraphicsState.set_stroke_alpha,
      GraphicsState.set_fill_alpha]

/-- C7: bare CMYK resolution maps (c,m,y,k) to
Solid(1-min(1,c+k), 1-min(1,m+k), 1-min(1,y+k)) and rebinds the active
space to DeviceCMYK; in particular CMYK(0,0,0,0) gives Solid(1,1,1),
CMYK(0,0,0,1) gives Solid(0,0,0) and CMYK(1,0,0,0) gives Solid(0,1,1). -/
theorem cmyk_resolution (cs : ColorSpace) (res : Resources) (mode : BlendMode)
    (c m y k : ℚ) :
    convert_color2 cs (Color.Cmyk c m y k) res mode =
      .ok (Fill.Solid (1 - min 1 (c + k)) (1 - min 1 (m + k))
        (1 - min 1 (y + k))) .DeviceCMYK ∧
    convert_color2 cs (Color.Cmyk 0 0 0 0) res mode =
      .ok (Fill.Solid 1 1 1) .DeviceCMYK ∧
    convert_color2 cs (Color.Cmyk 0 0 0 1) res mode =
      .ok (Fill.Solid 0 0 0) .DeviceCMYK ∧
    convert_color2 cs (Color.Cmyk 1 0 0 0) res mode =
      .ok (Fill.Solid 0 1 1) .DeviceCMYK := by
  have hmin : ∀ x : ℚ, clamp1 x = min 1 x := by
    intro x
    unfold clamp1
    rcases le_or_lt x 1 with h | h
    · rw [if_neg (not_lt.mpr h), min_eq_right h]
    · rw [if_pos h, min_eq_left h.le]
  refine ⟨?_, ?_, ?_, ?_⟩ <;> simp [convert_color2, cmyk2rgb, hmin]

/-- C8: Indexed over a DeviceRGB base with hival at least the index and
the three bytes [3i, 3i+3) present in the lookup table returns
Solid(b0, b1, b2) with the raw byte values copied verbatim into the float
channels (no division by 255). -/
theorem indexed_rgb_verbatim (res : Resources) (mode : BlendMode)
    (hival i : Nat) (lut : List Nat) (_hhival : i ≤ hival)
    (hrep : 3 * i + 3 ≤ 2 ^ 64) (hbound : 3 * i + 3 ≤ lut.length) :
    convert_color2 (.Indexed .DeviceRGB hival lut)
      (Color.Other [Prim.int (i : Int)]) res mode =
      .ok (Fill.Solid (lut.getD (3 * i) 0 : ℚ) (lut.getD (3 * i + 1) 0 : ℚ)
        (lut.getD (3 * i + 2) 0 : ℚ)) (.Indexed .DeviceRGB hival lut) := by
  unfold convert_color2
  simp [Prim.as_integer, as_usize_natCast i (by omega)]
  rw [Nat.mod_eq_of_lt (show 3 * i < 18446744073709551616 by omega),
    if_neg (by omega)]

theorem indexed_rgb_verbatim_witness :
    convert_color2 (.Indexed .DeviceRGB 1 [7, 8, 9, 10, 11, 12])
      (Color.Other [Prim.int ((1 : Nat) : Int)]) res0 .Overlay =
      .ok (Fill.Solid ([7, 8, 9, 10, 11, 12].getD (3 * 1) 0 : ℚ)
        (([7, 8, 9, 10, 11, 12].getD (3 * 1 + 1) 0 : ℚ))
        (([7, 8, 9, 10, 11, 12].getD (3 * 1 + 2) 0 : ℚ)))
      (.Indexed .DeviceRGB 1 [7, 8, 9, 10, 11, 12]) :=
  indexed_rgb_verbatim res0 .Overlay 1 1 [7, 8, 9, 10, 11, 12]
    (by norm_num) (by norm_num) (by norm_num)

/-- C9: BeginText; SetTextMatrix M; MoveTextPosition v leaves both the
text matrix and the line matrix equal to M composed with Translate(v);
set_matrix always assigns both matrices the same value, reset_matrix sets
both to the identity, and translate composes the translation onto the
line matrix and re-synchronizes both via set_matrix. -/
theorem text_matrix_sync (ctx : Ctx) (s : RState) (m : Matrix) (v : Point)
    (t : TextState) (mm : Transform2F) (vv : Vector2F) :
    render ctx s [Op.BeginText, Op.SetTextMatrix m, Op.MoveTextPosition v] =
      .ok { s with text_state :=
        { s.text_state with
            text_matrix := m.cvt * Transform2F.from_translation v.cvt
            line_matrix := m.cvt * Transform2F.from_translation v.cvt } } ∧
    (t.set_matrix mm).text_matrix = mm ∧
    (t.set_matrix mm).line_matrix = mm ∧
    t.reset_matrix.text_matrix = Transform2F.id ∧
    t.reset_matrix.line_matrix = Transform2F.id ∧
    t.translate vv = t.set_matrix (t.line_matrix * Transform2F.from_translation vv) :=
  ⟨rfl, rfl, rfl, rfl, rfl, rfl⟩

/-- C10 counterexample: executing Save while the current subpath is
non-empty leaves the outline empty and the pending subpath still in the
current-subpath slot — the subpath is not moved into the outline at the
Save boundary. -/
theorem save_no_flush :
    (step ctx0 sPend Op.Save).getState.current_outline = [] ∧
    (step ctx0 sPend Op.Save).getState.current_contour.segs =
      [Segment.endpoint ⟨1, 2⟩] ∧
    sPend.current_contour.is_empty = false := ⟨rfl, rfl, rfl⟩

/-- C10 amended: the path flush is invoked automatically before every
draw operator (Fill, Stroke, FillAndStroke) — the emitted draw call
carries the flushed outline and no pending subpath remains — but NOT at a
Save boundary: Save leaves the current subpath and the outline
untouched. -/
theorem flush_at_draw_not_at_save (ctx : Ctx) (s : RState) (w : Winding) :
    (step ctx s Op.Save).getState.current_contour = s.current_contour ∧
    (step ctx s Op.Save).getState.current_outline = s.current_outline ∧
    (step ctx s (Op.Fill w)).getState.current_contour.segs = [] ∧
    (step ctx s (Op.Fill w)).getState.draws = s.draws ++
      [⟨(s.flush).current_outline,
        .Fill ⟨s.graphics_state.fill_color, s.graphics_state.fill_color_alpha,
          blend_mode_fill s.graphics_state⟩,
        w.cvt, s.graphics_state.transform, s.graphics_state.clip_path_id⟩] ∧
    (step ctx s Op.Stroke).getState.current_contour.segs = [] ∧
    (step ctx s (Op.FillAndStroke w)).getState.current_contour.segs = [] := by
  have hdraw : ∀ (dm : DrawMode) (fr : FillRule),
      (s.draw dm fr).current_contour.segs = [] ∧
      (s.draw dm fr).draws = s.draws ++
        [⟨(s.flush).current_outline, dm, fr, s.graphics_state.transform,
          s.graphics_state.clip_path_id⟩] ∧
      (s.draw dm fr).graphics_state = s.graphics_state := by
    intro dm fr
    unfold RState.draw RState.flush
    by_cases h : s.current_contour.is_empty
    · have hsegs : s.current_contour.segs = [] := by
        simpa [Contour.is_empty, List.isEmpty_iff] using h
      simp [h, hsegs]
    · simp [h, Contour.new]
  exact ⟨rfl, rfl, (hdraw _ _).1, (hdraw _ _).2.1, (hdraw _ _).1, (hdraw _ _).1⟩

end PdfConvert


